import Mathlib

set_option maxRecDepth 100000

/-
  Verification development for the TrailBuddy caching and retrieval pipeline.

  Shallow embedding of src/storage_backend.py and src/backend_api.py:
  - key derivation (extract_reel_id_from_url), including a full MD5
    implementation (RFC 1321) mirroring hashlib.md5(...).hexdigest()[:12],
    validated below against standard test vectors;
  - the two storage backends (SupabaseR2Storage over an abstract remote
    state, LocalFileStorage over an abstract filesystem state);
  - the fetch orchestrator (extract_reel_data) with its temp-file handling;
  - the /cache/clear and /health endpoint behaviours.

  Remote I/O calls that can raise in Python are modelled with explicit
  boolean oracles (queryOk, uploadOk, ...): a false oracle means the call
  raised and the except-branch of the source runs.  Local filesystem writes
  are modelled as always succeeding; the filesystem is a map from cache key
  to file content, plus the set of per-key directories and the set of
  temporary files.
-/

/- ================= 32-bit arithmetic on Nat ================= -/

def not32 (x : Nat) : Nat := 4294967295 - x

def rotl32 (x s : Nat) : Nat := ((x % 2 ^ (32 - s)) * 2 ^ s) + (x / 2 ^ (32 - s))

/- ================= MD5 (RFC 1321) over byte lists ================= -/

def md5K : List Nat := [3614090360, 3905402710, 606105819, 3250441966, 4118548399, 1200080426, 2821735955, 4249261313, 1770035416, 2336552879, 4294925233, 2304563134, 1804603682, 4254626195, 2792965006, 1236535329, 4129170786, 3225465664, 643717713, 3921069994, 3593408605, 38016083, 3634488961, 3889429448, 568446438, 3275163606, 4107603335, 1163531501, 2850285829, 4243563512, 1735328473, 2368359562, 4294588738, 2272392833, 1839030562, 4259657740, 2763975236, 1272893353, 4139469664, 3200236656, 681279174, 3936430074, 3572445317, 76029189, 3654602809, 3873151461, 530742520, 3299628645, 4096336452, 1126891415, 2878612391, 4237533241, 1700485571, 2399980690, 4293915773, 2240044497, 1873313359, 4264355552, 2734768916, 1309151649, 4149444226, 3174756917, 718787259, 3951481745]

def md5Shift : List Nat := [7, 12, 17, 22, 7, 12, 17, 22, 7, 12, 17, 22, 7, 12, 17, 22, 5, 9, 14, 20, 5, 9, 14, 20, 5, 9, 14, 20, 5, 9, 14, 20, 4, 11, 16, 23, 4, 11, 16, 23, 4, 11, 16, 23, 4, 11, 16, 23, 6, 10, 15, 21, 6, 10, 15, 21, 6, 10, 15, 21, 6, 10, 15, 21]

def md5PadZeros (len : Nat) : Nat := (119 - (len % 64)) % 64

def md5LenBytes (len : Nat) : List Nat :=
  let b := 8 * len
  [b % 256, (b / 256) % 256, (b / 65536) % 256, (b / 16777216) % 256,
   (b / 4294967296) % 256, (b / 1099511627776) % 256,
   (b / 281474976710656) % 256, (b / 72057594037927936) % 256]

def md5Pad (msg : List Nat) : List Nat :=
  msg ++ [128] ++ List.replicate (md5PadZeros msg.length) 0 ++ md5LenBytes msg.length

def toBlocksAux : Nat → List Nat → List (List Nat)
  | 0, _ => []
  | _ + 1, [] => []
  | fuel + 1, bs => bs.take 64 :: toBlocksAux fuel (bs.drop 64)

def toBlocks (bs : List Nat) : List (List Nat) := toBlocksAux (bs.length + 1) bs

def wordAt (block : List Nat) (j : Nat) : Nat :=
  block.getD (4 * j) 0 + 256 * block.getD (4 * j + 1) 0 +
    65536 * block.getD (4 * j + 2) 0 + 16777216 * block.getD (4 * j + 3) 0

def md5Round (M : List Nat) (st : Nat × Nat × Nat × Nat) (i : Nat) : Nat × Nat × Nat × Nat :=
  let a := st.1
  let b := st.2.1
  let c := st.2.2.1
  let d := st.2.2.2
  let fg : Nat × Nat :=
    if i < 16 then (Nat.lor (Nat.land b c) (Nat.land (not32 b) d), i)
    else if i < 32 then (Nat.lor (Nat.land d b) (Nat.land (not32 d) c), (5 * i + 1) % 16)
    else if i < 48 then (Nat.xor b (Nat.xor c d), (3 * i + 5) % 16)
    else (Nat.xor c (Nat.lor b (not32 d)), (7 * i) % 16)
  let f := (fg.1 + a + md5K.getD i 0 + M.getD fg.2 0) % 4294967296
  (d, (b + rotl32 f (md5Shift.getD i 0)) % 4294967296, b, c)

def md5ProcessBlock (st : Nat × Nat × Nat × Nat) (block : List Nat) : Nat × Nat × Nat × Nat :=
  let M := (List.range 16).map (wordAt block)
  let r := (List.range 64).foldl (md5Round M) st
  ((st.1 + r.1) % 4294967296, (st.2.1 + r.2.1) % 4294967296,
   (st.2.2.1 + r.2.2.1) % 4294967296, (st.2.2.2 + r.2.2.2) % 4294967296)

def md5State (msg : List Nat) : Nat × Nat × Nat × Nat :=
  (toBlocks (md5Pad msg)).foldl md5ProcessBlock (1732584193, 4023233417, 2562383102, 271733878)

def wordLEBytes (w : Nat) : List Nat := [w % 256, (w / 256) % 256, (w / 65536) % 256, (w / 16777216) % 256]

def md5Bytes (msg : List Nat) : List Nat :=
  let st := md5State msg
  wordLEBytes st.1 ++ wordLEBytes st.2.1 ++ wordLEBytes st.2.2.1 ++ wordLEBytes st.2.2.2

def hexAlphabet : List Char := "0123456789abcdef".toList

def hexDigit (n : Nat) : Char := hexAlphabet.getD (n % 16) '0'

def byteHex (b : Nat) : List Char := [hexDigit (b / 16), hexDigit (b % 16)]

def md5HexChars (msg : List Nat) : List Char := (md5Bytes msg).flatMap byteHex

/- UTF-8 encoding of a string, as the byte list that str.encode() yields -/

def charUtf8 (c : Char) : List Nat :=
  let n := c.toNat
  if n < 128 then [n]
  else if n < 2048 then [192 + n / 64, 128 + n % 64]
  else if n < 65536 then [224 + n / 4096, 128 + (n / 64) % 64, 128 + n % 64]
  else [240 + n / 262144, 128 + (n / 4096) % 64, 128 + (n / 64) % 64, 128 + n % 64]

def utf8Bytes (s : String) : List Nat := s.toList.flatMap charUtf8

/-- Sanity check of the MD5 implementation: RFC 1321 test vector for the empty message. -/
theorem md5_check_empty : md5HexChars (utf8Bytes "") = "d41d8cd98f00b204e9800998ecf8427e".toList := by
  decide

/-- Sanity check of the MD5 implementation: RFC 1321 test vector for the message abc. -/
theorem md5_check_abc : md5HexChars (utf8Bytes "abc") = "900150983cd24fb0d6963f7d28e17f72".toList := by
  decide

/- ================= Key derivation: extract_reel_id_from_url =================
   Source: storage_backend.py.  The regex
   /(reel|p)/([A-Za-z0-9_-]+) is searched for (leftmost match); group 2 is
   returned.  Otherwise the first 12 hex characters of the MD5 digest of the
   URL bytes are returned. -/

def isIdChar (c : Char) : Bool := c.isAlpha || c.isDigit || c == '_' || c == '-'

def matchMarkerAt (cs : List Char) : Option String :=
  if cs.take 6 = "/reel/".toList then
    let run := (cs.drop 6).takeWhile isIdChar
    if run.isEmpty then none else some (String.mk run)
  else if cs.take 3 = "/p/".toList then
    let run := (cs.drop 3).takeWhile isIdChar
    if run.isEmpty then none else some (String.mk run)
  else none

def searchMarker : List Char → Option String
  | [] => none
  | c :: rest =>
    match matchMarkerAt (c :: rest) with
    | some s => some s
    | none => searchMarker rest

def extract_reel_id_from_url (reel_url : String) : String :=
  match searchMarker reel_url.toList with
  | some s => s
  | none => String.mk ((md5HexChars (utf8Bytes reel_url)).take 12)

/- ================= Data model ================= -/

structure ReelRecord where
  url : String
  reel_id : String
  caption : String
  hashtags : List String
  location : String
  likes : Nat
  timestamp : Option String
  owner_username : String
  video_url : String
  display_url : String
  r2_video_key : Option String
  from_cache : Bool
  cached_at : Option String
deriving DecidableEq, Repr

/- Content of a metadata.json file: either a well-formed serialized record
   (json.dump always yields one) or corrupt content on which json.load raises. -/
inductive MetaDoc where
  | valid (record : ReelRecord)
  | corrupt
deriving DecidableEq, Repr

inductive PyErr where
  | jsonDecodeError
  | httpException (code : Nat)
deriving DecidableEq, Repr

/- The fields extract_reel_data reads from the first Apify dataset item. -/
structure ApifyItem where
  caption : String
  hashtags : List String
  locationName : String
  likesCount : Nat
  timestamp : Option String
  ownerUsername : String
  videoUrl : String
  displayUrl : String
deriving DecidableEq, Repr

/- One row of the Supabase table reel_cache. -/
structure Row where
  reel_id : String
  url : String
  caption : String
  hashtags : List String
  location : String
  likes : Nat
  timestamp : Option String
  owner_username : String
  video_url : String
  display_url : String
  r2_video_key : Option String
  created_at : Option String
deriving DecidableEq, Repr

/- Persistent state of the hybrid backend: the metadata table, the set of R2
   object keys, and the timestamp the store stamps on newly inserted rows. -/
structure R2State where
  table : List Row
  bucket : List String
  now : Option String
deriving DecidableEq, Repr

/- Persistent state of the local backend under cache_dir: the set of per-key
   directories, the metadata.json content per key, and whether video.mp4 is
   present per key. -/
structure LocalState where
  dirs : List String
  metaFiles : String → Option MetaDoc
  videoFiles : String → Bool

def insertStr (x : String) (xs : List String) : List String := if x ∈ xs then xs else x :: xs

def removeStr (x : String) (xs : List String) : List String := xs.filter (fun y => y != x)

/- ================= SupabaseR2Storage ================= -/

def SupabaseR2Storage.rowOf (reel_id : String) (metadata : ReelRecord) (r2_video_key : Option String) : Row :=
  { reel_id := reel_id, url := metadata.url, caption := metadata.caption,
    hashtags := metadata.hashtags, location := metadata.location, likes := metadata.likes,
    timestamp := metadata.timestamp, owner_username := metadata.owner_username,
    video_url := metadata.video_url, display_url := metadata.display_url,
    r2_video_key := r2_video_key, created_at := none }

/- Upsert with on_conflict reel_id: replace the existing row (created_at, a
   column default, is kept on update and stamped on insert). -/
def upsertRow (now : Option String) (table : List Row) (row : Row) : List Row :=
  match table.find? (fun r => r.reel_id == row.reel_id) with
  | some old => table.map (fun r => if r.reel_id == row.reel_id then { row with created_at := old.created_at } else r)
  | none => table ++ [{ row with created_at := now }]

/- exists: select reel_id only, test len(data) > 0; a raised query (queryOk
   false) is caught and reported as False. -/
def SupabaseR2Storage.exists_ (st : R2State) (reel_id : String) (queryOk : Bool) : Bool × R2State :=
  if queryOk then (decide (0 < (st.table.filter (fun r => r.reel_id == reel_id)).length), st)
  else (false, st)

/- get_metadata: select the row and rebuild the metadata dict; any exception
   is caught and None is returned. -/
def SupabaseR2Storage.get_metadata (st : R2State) (reel_id : String) (queryOk : Bool) : Option ReelRecord × R2State :=
  if queryOk then
    match st.table.find? (fun r => r.reel_id == reel_id) with
    | none => (none, st)
    | some row =>
      (some { url := row.url, reel_id := row.reel_id, caption := row.caption,
              hashtags := row.hashtags, location := row.location, likes := row.likes,
              timestamp := row.timestamp, owner_username := row.owner_username,
              video_url := row.video_url, display_url := row.display_url,
              r2_video_key := row.r2_video_key, from_cache := true, cached_at := row.created_at }, st)
  else (none, st)

/- save_reel_data: step 1 uploads the video to R2 when a video_path is given
   and the file exists (uploadOk false models a ClientError: caught, returns
   False before any metadata write); steps 2-3 upsert the metadata row
   (upsertOk false models a raised upsert: caught, returns False). -/
def SupabaseR2Storage.save_reel_data (st : R2State) (reel_id : String) (metadata : ReelRecord)
    (video_path : Option String) (localFiles : List String) (uploadOk upsertOk : Bool) : Bool × R2State :=
  match video_path with
  | some p =>
    if p ∈ localFiles then
      if uploadOk then
        let key := reel_id ++ ".mp4"
        let st1 : R2State := { st with bucket := insertStr key st.bucket }
        if upsertOk then
          (true, { st1 with table := upsertRow st1.now st1.table (SupabaseR2Storage.rowOf reel_id metadata (some key)) })
        else (false, st1)
      else (false, st)
    else
      if upsertOk then
        (true, { st with table := upsertRow st.now st.table (SupabaseR2Storage.rowOf reel_id metadata none) })
      else (false, st)
  | none =>
    if upsertOk then
      (true, { st with table := upsertRow st.now st.table (SupabaseR2Storage.rowOf reel_id metadata none) })
    else (false, st)

/- get_video_url: read the metadata row, then return a public URL when
   r2_public_url is configured, else a presigned URL (1 hour).  The presigned
   URL is modelled as an opaque tagged string. -/
def SupabaseR2Storage.get_video_url (st : R2State) (reel_id : String) (queryOk : Bool)
    (r2_public_url : Option String) : Option String × R2State :=
  let gm := SupabaseR2Storage.get_metadata st reel_id queryOk
  match gm.1 with
  | none => (none, gm.2)
  | some m =>
    match m.r2_video_key with
    | none => (none, gm.2)
    | some k =>
      match r2_public_url with
      | some base => (some (base ++ "/" ++ k), gm.2)
      | none => (some ("presigned-1h/" ++ k), gm.2)

/- delete_reel: read the metadata first, delete the Supabase row, then delete
   the R2 object when the record pointed at one.  delOk false models the row
   delete raising (caught: False, nothing deleted); r2DelOk false models the
   object delete raising (caught: False, row already gone, blob kept). -/
def SupabaseR2Storage.delete_reel (st : R2State) (reel_id : String) (getOk delOk r2DelOk : Bool) : Bool × R2State :=
  let md := (SupabaseR2Storage.get_metadata st reel_id getOk).1
  if delOk then
    let st1 : R2State := { st with table := st.table.filter (fun r => r.reel_id != reel_id) }
    match md with
    | some m =>
      match m.r2_video_key with
      | some k =>
        if r2DelOk then (true, { st1 with bucket := removeStr k st1.bucket })
        else (false, st1)
      | none => (true, st1)
    | none => (true, st1)
  else (false, st)

/- ================= LocalFileStorage ================= -/

/- _get_reel_dir performs mkdir(exist_ok=True) on cache_dir/reel_id. -/
def LocalFileStorage._get_reel_dir (st : LocalState) (reel_id : String) : LocalState :=
  { st with dirs := insertStr reel_id st.dirs }

def LocalFileStorage.exists_ (st : LocalState) (reel_id : String) : Bool × LocalState :=
  let st1 := LocalFileStorage._get_reel_dir st reel_id
  ((st1.metaFiles reel_id).isSome, st1)

/- get_metadata: json.load of metadata.json; no try/except here, so corrupt
   content makes the call raise. -/
def LocalFileStorage.get_metadata (st : LocalState) (reel_id : String) :
    Except PyErr (Option ReelRecord) × LocalState :=
  let st1 := LocalFileStorage._get_reel_dir st reel_id
  match st1.metaFiles reel_id with
  | none => (.ok none, st1)
  | some (MetaDoc.valid r) => (.ok (some r), st1)
  | some MetaDoc.corrupt => (.error PyErr.jsonDecodeError, st1)

/- save_reel_data: json.dump the whole metadata dict verbatim, then copy the
   video file when the given path exists.  Local I/O errors (the except
   branch returning False) are not modelled: writes succeed here. -/
def LocalFileStorage.save_reel_data (st : LocalState) (reel_id : String) (metadata : ReelRecord)
    (video_path : Option String) (localFiles : List String) : Bool × LocalState :=
  let st1 := LocalFileStorage._get_reel_dir st reel_id
  let st2 : LocalState :=
    { st1 with metaFiles := fun k => if k == reel_id then some (MetaDoc.valid metadata) else st1.metaFiles k }
  let st3 : LocalState :=
    match video_path with
    | some p =>
      if p ∈ localFiles then
        { st2 with videoFiles := fun k => if k == reel_id then true else st2.videoFiles k }
      else st2
    | none => st2
  (true, st3)

/- ================= StorageBackend interface and instances ================= -/

/- The duck-typed backend surface extract_reel_data relies on, over a backend
   state of type σ.  save_reel_data receives the list of staged local files
   so that the os.path.exists check on video_path is meaningful. -/
structure StorageBackend (σ : Type) where
  exists_ : σ → String → Bool × σ
  get_metadata : σ → String → Except PyErr (Option ReelRecord) × σ
  save_reel_data : σ → String → ReelRecord → Option String → List String → Bool × σ

def LocalFileStorage.asStorageBackend : StorageBackend LocalState :=
  { exists_ := LocalFileStorage.exists_,
    get_metadata := LocalFileStorage.get_metadata,
    save_reel_data := LocalFileStorage.save_reel_data }

/- The hybrid backend never lets a metadata read raise (it catches and
   returns None), hence get_metadata is always .ok here. -/
def SupabaseR2Storage.asStorageBackend (existsOk metaOk uploadOk upsertOk : Bool) : StorageBackend R2State :=
  { exists_ := fun st k => SupabaseR2Storage.exists_ st k existsOk,
    get_metadata := fun st k =>
      let gm := SupabaseR2Storage.get_metadata st k metaOk
      (.ok gm.1, gm.2),
    save_reel_data := fun st k md vp fsL => SupabaseR2Storage.save_reel_data st k md vp fsL uploadOk upsertOk }

/- ================= Downloader ================= -/

/- download_video streams video_url into output_path.  On success the file
   holds the full content.  On failure (ok false) it returns False without
   deleting anything: either requests.get raised before the file was opened
   (failAfterOpen false) or the copy loop raised after open created the file
   (failAfterOpen true, a partially-written file).  fs is the set of files
   present. -/
def download_video (video_url : String) (ok failAfterOpen : Bool) (output_path : String)
    (fs : List String) : Bool × List String :=
  if ok then (true, insertStr output_path fs)
  else if failAfterOpen then (false, insertStr output_path fs)
  else (false, fs)

/- ================= FetchOrchestrator: extract_reel_data ================= -/

def buildExtracted (reel_url reel_id : String) (item : ApifyItem) : ReelRecord :=
  { url := reel_url, reel_id := reel_id, caption := item.caption, hashtags := item.hashtags,
    location := item.locationName, likes := item.likesCount, timestamp := item.timestamp,
    owner_username := item.ownerUsername, video_url := item.videoUrl,
    display_url := item.displayUrl, r2_video_key := none, from_cache := false, cached_at := none }

/- Step 3 of extract_reel_data: when the fresh record has a video URL,
   NamedTemporaryFile(delete=False) creates tmpName, then download_video runs;
   on download failure video_path is set back to None (the temp file stays). -/
def stageVideo (fs : List String) (tmpName videoUrl : String) (downloadOk failAfterOpen : Bool) :
    Option String × List String :=
  if videoUrl == "" then (none, fs)
  else
    let fs1 := insertStr tmpName fs
    let dl := download_video videoUrl downloadOk failAfterOpen tmpName fs1
    if dl.1 then (some tmpName, dl.2) else (none, dl.2)

/- Steps 2-5 of extract_reel_data on a cache miss: Apify fetch (none models
   no items / a raised call, surfaced as HTTPException 500), video staging,
   cache save (its result is ignored), and the cleanup that unlinks
   video_path when it is set and the file exists. -/
def fetchFromApify {σ : Type} (S : StorageBackend σ) (st : σ) (fs : List String)
    (reel_url reel_id tmpName : String) (apify : Option ApifyItem) (downloadOk failAfterOpen : Bool) :
    Except PyErr ReelRecord × σ × List String :=
  match apify with
  | none => (.error (PyErr.httpException 500), st, fs)
  | some item =>
    let extracted := buildExtracted reel_url reel_id item
    let vp := stageVideo fs tmpName item.videoUrl downloadOk failAfterOpen
    let saved := S.save_reel_data st reel_id extracted vp.1 vp.2
    let fs2 :=
      match vp.1 with
      | some p => if p ∈ vp.2 then removeStr p vp.2 else vp.2
      | none => vp.2
    (.ok extracted, saved.2, fs2)

/- extract_reel_data (backend_api.py), with the storage backend configured.
   The cache check is outside any try block: an exception raised by
   get_metadata propagates to the caller.  A read that yields no record
   despite the existence check falls through to the fresh fetch. -/
def extract_reel_data {σ : Type} (S : StorageBackend σ) (st : σ) (fs : List String)
    (reel_url tmpName : String) (apify : Option ApifyItem) (downloadOk failAfterOpen : Bool) :
    Except PyErr ReelRecord × σ × List String :=
  let reel_id := extract_reel_id_from_url reel_url
  let ex := S.exists_ st reel_id
  if ex.1 then
    let gm := S.get_metadata ex.2 reel_id
    match gm.1 with
    | .error e => (.error e, gm.2, fs)
    | .ok (some m) => (.ok { m with from_cache := true, url := reel_url }, gm.2, fs)
    | .ok none => fetchFromApify S gm.2 fs reel_url reel_id tmpName apify downloadOk failAfterOpen
  else fetchFromApify S ex.2 fs reel_url reel_id tmpName apify downloadOk failAfterOpen

/- ================= Endpoint models ================= -/

/- Methods defined on each backend class in storage_backend.py. -/
def SupabaseR2Storage.methodNames : List String :=
  ["exists", "get_metadata", "save_reel_data", "get_video_url", "delete_reel", "list_cached_reels"]

def LocalFileStorage.methodNames : List String :=
  ["_get_reel_dir", "exists", "get_metadata", "save_reel_data", "get_video_url"]

inductive ClearCacheResult where
  | noStorage503
  | bulkNotImplemented
  | cleared (reel_url : String)
  | notFoundInCache
  | httpError500
deriving DecidableEq, Repr

/- POST /cache/clear: with storage configured and a reel_url given, the code
   runs storage.delete_reel_data(reel_url) inside try/except.  The attribute
   lookup consults the backend class method table; when the name is missing
   the AttributeError is caught by the except branch, which raises
   HTTPException(500).  The branch where the method exists (unreachable for
   both backends defined in the source) is modelled as a successful clear. -/
def clear_cache (storageMethods : Option (List String)) (reel_url : Option String) : ClearCacheResult :=
  match storageMethods with
  | none => ClearCacheResult.noStorage503
  | some ms =>
    match reel_url with
    | none => ClearCacheResult.bulkNotImplemented
    | some u =>
      if "delete_reel_data" ∈ ms then ClearCacheResult.cleared u
      else ClearCacheResult.httpError500

/- Names bound at module level in backend_api.py (imports, module globals,
   classes, functions).  STORAGE_PROVIDER is referenced in health() but never
   bound here, and it is not a Python builtin. -/
def backend_api_module_globals : List String :=
  ["os", "json", "traceback", "tempfile", "load_dotenv", "OpenAI", "FastAPI",
   "HTTPException", "CORSMiddleware", "BaseModel", "List", "Optional", "ApifyClient",
   "get_storage_backend", "extract_reel_id_from_url", "download_video", "StorageBackend",
   "OPENAI_API_KEY", "APIFY_API_TOKEN", "openai_client", "apify_client", "storage", "app",
   "ManualItineraryRequest", "ReelRequest", "ExtractPlacesRequest", "extract_json",
   "generate_manual_itinerary", "extract_reel_data", "extract_places_from_reel_data",
   "generate_reel_itinerary", "root", "health", "create_manual_itinerary", "extract_places",
   "create_reel_itinerary", "clear_cache", "debug_extract_reel"]

inductive BackendKind where
  | supabase_r2
  | localFile
deriving DecidableEq, Repr

inductive HealthResult where
  | ok (storage_provider : String) (storage_active : Bool)
  | nameError (missing : String)
deriving DecidableEq, Repr

/- GET /health: the dict literal evaluates STORAGE_PROVIDER if storage else
   "disabled"; the name lookup only happens when storage is not None.  A
   successful lookup would yield the bound value (that branch is dead, since
   the name is unbound). -/
def health (storage : Option BackendKind) : HealthResult :=
  match storage with
  | some _ =>
    if "STORAGE_PROVIDER" ∈ backend_api_module_globals then
      HealthResult.ok "STORAGE_PROVIDER" true
    else HealthResult.nameError "STORAGE_PROVIDER"
  | none => HealthResult.ok "disabled" false

/- ================= Shared sample values ================= -/

def sampleItem : ApifyItem :=
  { caption := "Trip", hashtags := ["goa"], locationName := "Goa", likesCount := 5,
    timestamp := some "t0", ownerUsername := "alice", videoUrl := "https://cdn.x.test/v.mp4",
    displayUrl := "https://cdn.x.test/d.jpg" }

def sampleRecord : ReelRecord :=
  { url := "https://x.test/reel/ABC123/", reel_id := "ABC123", caption := "Trip",
    hashtags := ["goa"], location := "Goa", likes := 5, timestamp := some "t0",
    owner_username := "alice", video_url := "https://cdn.x.test/v.mp4",
    display_url := "https://cdn.x.test/d.jpg", r2_video_key := none,
    from_cache := false, cached_at := none }

def sampleRow : Row :=
  { reel_id := "ABC123", url := "https://x.test/reel/ABC123/", caption := "Trip",
    hashtags := ["goa"], location := "Goa", likes := 5, timestamp := some "t0",
    owner_username := "alice", video_url := "https://cdn.x.test/v.mp4",
    display_url := "https://cdn.x.test/d.jpg", r2_video_key := some "ABC123.mp4",
    created_at := some "t1" }

/- Record equality on every field except from_cache and cached_at. -/
def eqExceptCacheFields (a b : ReelRecord) : Prop :=
  a.url = b.url ∧ a.reel_id = b.reel_id ∧ a.caption = b.caption ∧ a.hashtags = b.hashtags
    ∧ a.location = b.location ∧ a.likes = b.likes ∧ a.timestamp = b.timestamp
    ∧ a.owner_username = b.owner_username ∧ a.video_url = b.video_url
    ∧ a.display_url = b.display_url ∧ a.r2_video_key = b.r2_video_key

instance (a b : ReelRecord) : Decidable (eqExceptCacheFields a b) := by
  unfold eqExceptCacheFields
  infer_instance

/- ================= Helper lemmas ================= -/

lemma flatMap_byteHex_length (l : List Nat) : (l.flatMap byteHex).length = 2 * l.length := by
  induction l with
  | nil => simp
  | cons b t ih => simp [byteHex, ih]; omega

lemma md5Bytes_length (msg : List Nat) : (md5Bytes msg).length = 16 := by
  simp [md5Bytes, wordLEBytes]

lemma md5HexChars_length (msg : List Nat) : (md5HexChars msg).length = 32 := by
  unfold md5HexChars
  rw [flatMap_byteHex_length, md5Bytes_length]

lemma hexDigit_mem (n : Nat) : hexDigit n ∈ hexAlphabet := by
  have h : n % 16 < 16 := Nat.mod_lt _ (by norm_num)
  unfold hexDigit
  generalize n % 16 = m at h
  interval_cases m <;> decide

/-- C7: key derivation is deterministic: any two URLs whose leftmost recognized
marker yields the same identifier segment derive the same key, that key is the
identifier segment verbatim, and the scenario URL https://x.test/reel/ABC123/
derives the key ABC123. -/
theorem c7_key_determinism (u1 u2 s : String)
    (h1 : searchMarker u1.toList = some s) (h2 : searchMarker u2.toList = some s) :
    extract_reel_id_from_url u1 = extract_reel_id_from_url u2
    ∧ extract_reel_id_from_url u1 = s
    ∧ extract_reel_id_from_url "https://x.test/reel/ABC123/" = "ABC123" := by
  unfold extract_reel_id_from_url
  rw [h1, h2]
  exact ⟨rfl, rfl, by decide⟩

/-- Witness for C7 at the concrete URL pair of the spec scenario. -/
theorem c7_key_determinism_witness :
    searchMarker "https://x.test/reel/ABC123/".toList = some "ABC123"
    ∧ searchMarker "https://www.x.test/p/ABC123".toList = some "ABC123"
    ∧ (extract_reel_id_from_url "https://x.test/reel/ABC123/"
          = extract_reel_id_from_url "https://www.x.test/p/ABC123"
        ∧ extract_reel_id_from_url "https://x.test/reel/ABC123/" = "ABC123"
        ∧ extract_reel_id_from_url "https://x.test/reel/ABC123/" = "ABC123") :=
  ⟨by decide, by decide, c7_key_determinism _ _ _ (by decide) (by decide)⟩

/-- C8: for a URL with no recognizable identifier segment the derived key is the
truncation to 12 characters of the MD5 digest (in hex) of the UTF-8 bytes of
the URL, computed by a pure function (hence stable across calls), it has length
exactly 12, and every character comes from the fixed hex alphabet. -/
theorem c8_hash_fallback (u : String) (h : searchMarker u.toList = none) :
    extract_reel_id_from_url u = String.mk ((md5HexChars (utf8Bytes u)).take 12)
    ∧ (extract_reel_id_from_url u).length = 12
    ∧ ∀ c ∈ (extract_reel_id_from_url u).toList, c ∈ hexAlphabet := by
  have he : extract_reel_id_from_url u = String.mk ((md5HexChars (utf8Bytes u)).take 12) := by
    unfold extract_reel_id_from_url
    rw [h]
  refine ⟨he, ?_, ?_⟩
  · rw [he]
    show ((md5HexChars (utf8Bytes u)).take 12).length = 12
    rw [List.length_take, md5HexChars_length]
    decide
  · intro c hc
    rw [he] at hc
    have hc2 : c ∈ (md5HexChars (utf8Bytes u)).take 12 := hc
    have hc3 : c ∈ md5HexChars (utf8Bytes u) := List.take_subset _ _ hc2
    unfold md5HexChars at hc3
    obtain ⟨b, _, hcb⟩ := List.mem_flatMap.mp hc3
    simp only [byteHex, List.mem_cons, List.not_mem_nil, or_false] at hcb
    rcases hcb with h1 | h1 <;> rw [h1] <;> exact hexDigit_mem _

/-- Witness for C8 at the spec scenario URL https://x.test/share?id=999. -/
theorem c8_hash_fallback_witness :
    searchMarker "https://x.test/share?id=999".toList = none
    ∧ (extract_reel_id_from_url "https://x.test/share?id=999"
          = String.mk ((md5HexChars (utf8Bytes "https://x.test/share?id=999")).take 12)
        ∧ (extract_reel_id_from_url "https://x.test/share?id=999").length = 12
        ∧ ∀ c ∈ (extract_reel_id_from_url "https://x.test/share?id=999").toList, c ∈ hexAlphabet) :=
  ⟨by decide, c8_hash_fallback _ (by decide)⟩

/-- C5: on the hybrid backend, when save_reel_data is given a blob path to an
existing staged file and the upload fails, the call returns failure with the
backend state (in particular the metadata table) completely unchanged; and even
when the upload succeeds but the subsequent upsert fails, no metadata row has
been written, confirming the upload happens before the upsert. -/
theorem c5_upload_before_upsert (st : R2State) (k : String) (md : ReelRecord) (p : String)
    (fs : List String) (u : Bool) (hp : p ∈ fs) :
    SupabaseR2Storage.save_reel_data st k md (some p) fs false u = (false, st)
    ∧ (SupabaseR2Storage.save_reel_data st k md (some p) fs true false).1 = false
    ∧ (SupabaseR2Storage.save_reel_data st k md (some p) fs true false).2.table = st.table := by
  unfold SupabaseR2Storage.save_reel_data
  simp [hp]

/-- Witness for C5 at a concrete state, record and staged file. -/
theorem c5_upload_before_upsert_witness :
    ("/tmp/tmpv.mp4" ∈ ["/tmp/tmpv.mp4"])
    ∧ (SupabaseR2Storage.save_reel_data ⟨[], [], none⟩ "ABC123" sampleRecord (some "/tmp/tmpv.mp4")
          ["/tmp/tmpv.mp4"] false true = (false, ⟨[], [], none⟩)
        ∧ (SupabaseR2Storage.save_reel_data ⟨[], [], none⟩ "ABC123" sampleRecord (some "/tmp/tmpv.mp4")
            ["/tmp/tmpv.mp4"] true false).1 = false
        ∧ (SupabaseR2Storage.save_reel_data ⟨[], [], none⟩ "ABC123" sampleRecord (some "/tmp/tmpv.mp4")
            ["/tmp/tmpv.mp4"] true false).2.table = (⟨[], [], none⟩ : R2State).table) :=
  ⟨by decide, c5_upload_before_upsert _ _ _ _ _ _ (by decide)⟩

/-- C4: the administrative delete endpoint /cache/clear, called with a source
URL, always reports an HTTP 500 error on both backends: the code invokes the
nonexistent backend method delete_reel_data (with the raw URL), so the
attribute lookup fails and the except branch raises HTTPException(500); no key
is derived, no delete runs, and existence is never reported. -/
theorem c4_clear_cache_attribute_error :
    (∀ u : String, clear_cache (some SupabaseR2Storage.methodNames) (some u)
        = ClearCacheResult.httpError500)
    ∧ (∀ u : String, clear_cache (some LocalFileStorage.methodNames) (some u)
        = ClearCacheResult.httpError500) :=
  ⟨fun _ => rfl, fun _ => rfl⟩

/-- C10: whenever a storage backend is configured (storage is not None), the
/health endpoint fails with an unbound-name error on STORAGE_PROVIDER, which is
referenced there but bound nowhere at module level. -/
theorem c10_health_name_error (storage : Option BackendKind) (h : storage.isSome = true) :
    health storage = HealthResult.nameError "STORAGE_PROVIDER" := by
  cases storage with
  | none => simp at h
  | some b => rfl

/-- Witness for C10 with the local backend configured. -/
theorem c10_health_name_error_witness :
    (some BackendKind.localFile).isSome = true
    ∧ health (some BackendKind.localFile) = HealthResult.nameError "STORAGE_PROVIDER" :=
  ⟨rfl, c10_health_name_error _ rfl⟩

/- ================= Temp-file bookkeeping lemmas ================= -/

lemma insertStr_of_not_mem {x : String} {xs : List String} (h : x ∉ xs) :
    insertStr x xs = x :: xs := by
  simp [insertStr, h]

lemma removeStr_of_not_mem {x : String} {xs : List String} (h : x ∉ xs) :
    removeStr x xs = xs := by
  rw [removeStr, List.filter_eq_self]
  intro a ha
  simp only [bne_iff_ne, ne_eq]
  exact fun he => h (he ▸ ha)

lemma removeStr_cons_self {x : String} {xs : List String} (h : x ∉ xs) :
    removeStr x (x :: xs) = xs := by
  have h2 := removeStr_of_not_mem h
  unfold removeStr at h2 ⊢
  simp [List.filter_cons, h2]

lemma stageVideo_ok {v : String} (hv : (v == "") = false) (fs : List String) (tmp : String)
    (fAO : Bool) (h : tmp ∉ fs) : stageVideo fs tmp v true fAO = (some tmp, tmp :: fs) := by
  simp [stageVideo, hv, download_video, insertStr, h]

lemma stageVideo_fail {v : String} (hv : (v == "") = false) (fs : List String) (tmp : String)
    (fAO : Bool) (h : tmp ∉ fs) : stageVideo fs tmp v false fAO = (none, tmp :: fs) := by
  cases fAO <;> simp [stageVideo, hv, download_video, insertStr, h]

lemma fetchFromApify_temp_files {σ : Type} (S : StorageBackend σ) (st : σ) (fs : List String)
    (url rid tmp : String) (apify : Option ApifyItem) (dOk fAO : Bool) (h : tmp ∉ fs) :
    ((fetchFromApify S st fs url rid tmp apify dOk fAO).2.2 = fs
      ∨ (fetchFromApify S st fs url rid tmp apify dOk fAO).2.2 = tmp :: fs)
    ∧ (dOk = true → (fetchFromApify S st fs url rid tmp apify dOk fAO).2.2 = fs) := by
  cases apify with
  | none => exact ⟨Or.inl rfl, fun _ => rfl⟩
  | some item =>
    by_cases hv : (item.videoUrl == "") = true
    · have hs : stageVideo fs tmp item.videoUrl dOk fAO = (none, fs) := by
        simp [stageVideo, hv]
      constructor
      · left
        simp [fetchFromApify, hs]
      · intro _
        simp [fetchFromApify, hs]
    · have hv' : (item.videoUrl == "") = false := by
        simpa using hv
      cases dOk with
      | false =>
        have hs := stageVideo_fail hv' fs tmp fAO h
        constructor
        · right
          simp [fetchFromApify, hs]
        · intro hc
          cases hc
      | true =>
        have hs := stageVideo_ok hv' fs tmp fAO h
        have hfs : (fetchFromApify S st fs url rid tmp (some item) true fAO).2.2 = fs := by
          simp [fetchFromApify, hs, removeStr_cons_self h]
        exact ⟨Or.inl hfs, fun _ => hfs⟩

/-- C1 counterexample: a fetch on an empty cache whose video download fails
(here: requests.get raised) finishes with the temp file created by
NamedTemporaryFile still on disk, because download failure resets video_path
to None and the cleanup step only unlinks video_path; the claimed cleanup
guarantee is violated. -/
theorem c1_counterexample :
    (extract_reel_data LocalFileStorage.asStorageBackend
        ⟨[], fun _ => none, fun _ => false⟩ []
        "https://x.test/reel/ABC123/" "/tmp/tmpv.mp4" (some sampleItem) false false).2.2
      = ["/tmp/tmpv.mp4"]
    ∧ (["/tmp/tmpv.mp4"] : List String) ≠ [] :=
  ⟨by decide, by decide⟩

/-- C1 amended: a call to extract_reel_data leaves no temporary file behind
except in one case: when the record has a video URL and the download fails,
exactly the one temp file created for that download remains on disk.  In
particular, whenever the download succeeds (and on every path that creates no
temp file) the file set is unchanged. -/
theorem c1_amended_cleanup {σ : Type} (S : StorageBackend σ) (st : σ) (fs : List String)
    (url tmp : String) (apify : Option ApifyItem) (dOk fAO : Bool) (h : tmp ∉ fs) :
    ((extract_reel_data S st fs url tmp apify dOk fAO).2.2 = fs
      ∨ (extract_reel_data S st fs url tmp apify dOk fAO).2.2 = tmp :: fs)
    ∧ (dOk = true → (extract_reel_data S st fs url tmp apify dOk fAO).2.2 = fs) := by
  simp only [extract_reel_data]
  cases hex : (S.exists_ st (extract_reel_id_from_url url)).1 with
  | false =>
    simp only [Bool.false_eq_true, if_false]
    exact fetchFromApify_temp_files S _ fs url _ tmp apify dOk fAO h
  | true =>
    simp only [if_true]
    cases hgm : (S.get_metadata (S.exists_ st (extract_reel_id_from_url url)).2
        (extract_reel_id_from_url url)).1 with
    | error e => simp [hgm]
    | ok o =>
      cases o with
      | none =>
        simp only [hgm]
        exact fetchFromApify_temp_files S _ fs url _ tmp apify dOk fAO h
      | some m => simp [hgm]

/-- Witness for C1 amended: fetch on an empty local cache with a successful
download leaves the file set unchanged. -/
theorem c1_amended_cleanup_witness :
    ("/tmp/tmpv.mp4" ∉ ([] : List String))
    ∧ (((extract_reel_data LocalFileStorage.asStorageBackend
            ⟨[], fun _ => none, fun _ => false⟩ []
            "https://x.test/reel/ABC123/" "/tmp/tmpv.mp4" (some sampleItem) true false).2.2 = []
          ∨ (extract_reel_data LocalFileStorage.asStorageBackend
              ⟨[], fun _ => none, fun _ => false⟩ []
              "https://x.test/reel/ABC123/" "/tmp/tmpv.mp4" (some sampleItem) true false).2.2
            = ["/tmp/tmpv.mp4"])
        ∧ (true = true →
            (extract_reel_data LocalFileStorage.asStorageBackend
              ⟨[], fun _ => none, fun _ => false⟩ []
              "https://x.test/reel/ABC123/" "/tmp/tmpv.mp4" (some sampleItem) true false).2.2 = [])) :=
  ⟨by decide, c1_amended_cleanup _ _ _ _ _ _ _ _ (by decide)⟩

/-- C2 counterexample: on the local backend a corrupt metadata.json makes
extract_reel_data surface the json decode error to the caller (the cache check
is outside the try block), instead of treating it as a miss and fetching fresh
data, even though the upstream fetch would have succeeded (an Apify item is
available). -/
theorem c2_counterexample :
    (extract_reel_data LocalFileStorage.asStorageBackend
        ⟨["ABC123"], fun k => if k == "ABC123" then some MetaDoc.corrupt else none, fun _ => false⟩ []
        "https://x.test/reel/ABC123/" "/tmp/tmpv.mp4" (some sampleItem) true false).1
      = Except.error PyErr.jsonDecodeError :=
  rfl

/-- C2 amended: on the hybrid backend an unreadable or corrupt metadata read
(get_metadata catches the exception and yields None) is treated as a cache
miss: extract_reel_data falls through to the upstream fetch and returns the
fresh record, with from_cache false. -/
theorem c2_amended_corrupt_cache (st : R2State) (fs : List String) (url tmp : String)
    (row : Row) (item : ApifyItem) (uOk sOk dOk fAO : Bool)
    (hrow : st.table.find? (fun r => r.reel_id == extract_reel_id_from_url url) = some row) :
    (extract_reel_data (SupabaseR2Storage.asStorageBackend true false uOk sOk) st fs url tmp
        (some item) dOk fAO).1
      = Except.ok (buildExtracted url (extract_reel_id_from_url url) item)
    ∧ (buildExtracted url (extract_reel_id_from_url url) item).from_cache = false := by
  constructor
  · have hmem : row ∈ st.table := List.mem_of_find?_eq_some hrow
    have hpred : (row.reel_id == extract_reel_id_from_url url) = true := by
      have h2 := List.find?_some hrow
      simpa using h2
    have hfil : row ∈ st.table.filter (fun r => r.reel_id == extract_reel_id_from_url url) :=
      List.mem_filter.mpr ⟨hmem, hpred⟩
    have hex : (SupabaseR2Storage.exists_ st (extract_reel_id_from_url url) true).1 = true := by
      simp only [SupabaseR2Storage.exists_, if_true, decide_eq_true_eq]
      exact List.length_pos.mpr (List.ne_nil_of_mem hfil)
    simp [extract_reel_data, SupabaseR2Storage.asStorageBackend, hex,
      SupabaseR2Storage.exists_, SupabaseR2Storage.get_metadata, fetchFromApify]
  · rfl

/-- Witness for C2 amended at a concrete hybrid state holding a row for the key. -/
theorem c2_amended_corrupt_cache_witness :
    ((⟨[sampleRow], ["ABC123.mp4"], some "t1"⟩ : R2State).table.find?
        (fun r => r.reel_id == extract_reel_id_from_url "https://x.test/reel/ABC123/")
      = some sampleRow)
    ∧ ((extract_reel_data (SupabaseR2Storage.asStorageBackend true false true true)
          ⟨[sampleRow], ["ABC123.mp4"], some "t1"⟩ [] "https://x.test/reel/ABC123/" "/tmp/tmpv.mp4"
          (some sampleItem) true false).1
        = Except.ok (buildExtracted "https://x.test/reel/ABC123/"
            (extract_reel_id_from_url "https://x.test/reel/ABC123/") sampleItem)
      ∧ (buildExtracted "https://x.test/reel/ABC123/"
          (extract_reel_id_from_url "https://x.test/reel/ABC123/") sampleItem).from_cache = false) :=
  ⟨by decide, c2_amended_corrupt_cache _ _ _ _ sampleRow _ _ _ _ _ (by decide)⟩

/- ================= Table and bucket lemmas ================= -/

lemma not_mem_removeStr_self (x : String) (xs : List String) : x ∉ removeStr x xs := by
  simp [removeStr, List.mem_filter]

lemma filter_ne_key_find?_none (l : List Row) (k : String) :
    (l.filter (fun r => r.reel_id != k)).find? (fun r => r.reel_id == k) = none := by
  rw [List.find?_eq_none]
  intro x hx
  have hmem := List.mem_filter.mp hx
  simpa using hmem.2

lemma filter_ne_key_filter_eq_nil (l : List Row) (k : String) :
    (l.filter (fun r => r.reel_id != k)).filter (fun r => r.reel_id == k) = [] := by
  rw [List.filter_filter]
  apply List.filter_eq_nil_iff.mpr
  intro a _
  simp

lemma find?_map_if (p : Row → Bool) (nr : Row) (hp : p nr = true) :
    ∀ l : List Row, (l.find? p).isSome = true →
      (l.map (fun x => if p x then nr else x)).find? p = some nr := by
  intro l
  induction l with
  | nil =>
    intro hy
    simp at hy
  | cons x xs ih =>
    intro hy
    by_cases hx : p x = true
    · simp [List.map_cons, hx, hp]
    · have hx' : p x = false := by
        simpa using hx
      rw [List.find?_cons_of_neg _ (by simp [hx'])] at hy
      rw [List.map_cons, if_neg (by simp [hx'])]
      rw [List.find?_cons_of_neg _ (by simp [hx'])]
      exact ih hy

lemma find?_upsertRow (now : Option String) (table : List Row) (row : Row) :
    ∃ c, (upsertRow now table row).find? (fun x => x.reel_id == row.reel_id)
      = some { row with created_at := c } := by
  unfold upsertRow
  cases hf : table.find? (fun r => r.reel_id == row.reel_id) with
  | none =>
    refine ⟨now, ?_⟩
    rw [List.find?_append, hf]
    simp [List.find?]
  | some old =>
    refine ⟨old.created_at, ?_⟩
    apply find?_map_if
    · simp
    · rw [hf]
      rfl

/-- C3 counterexample: delete_reel on an entry with a stored video, where the
row delete succeeds but the blob delete raises, returns failure having removed
the metadata row while the blob object is still in the bucket: exactly the
partial state (metadata removed, blob orphaned) the claim says never occurs. -/
theorem c3_counterexample :
    SupabaseR2Storage.delete_reel ⟨[sampleRow], ["ABC123.mp4"], some "t1"⟩ "ABC123" true true false
      = (false, ⟨[], ["ABC123.mp4"], some "t1"⟩)
    ∧ (SupabaseR2Storage.exists_ ⟨[], ["ABC123.mp4"], some "t1"⟩ "ABC123" true).1 = false
    ∧ "ABC123.mp4" ∈ (⟨[], ["ABC123.mp4"], some "t1"⟩ : R2State).bucket :=
  ⟨by decide, by decide, by decide⟩

/- The metadata-side conclusions of a completed delete: once the table row is
   filtered out, the existence check is false and get_video_url resolves to
   None, whatever the bucket holds. -/
lemma exists_gvu_after_filter (tb : List Row) (bk : List String) (nw : Option String)
    (k : String) (pub : Option String) :
    (SupabaseR2Storage.exists_ ⟨tb.filter (fun r => r.reel_id != k), bk, nw⟩ k true).1 = false
    ∧ (SupabaseR2Storage.get_video_url ⟨tb.filter (fun r => r.reel_id != k), bk, nw⟩ k true pub).1
        = none := by
  constructor
  · simp [SupabaseR2Storage.exists_, filter_ne_key_filter_eq_nil]
  · have hnone : ∀ t : List Row, t.find? (fun _ => false) = none := fun t =>
      List.find?_eq_none.mpr (fun x _ => by simp)
    simp [SupabaseR2Storage.get_video_url, SupabaseR2Storage.get_metadata,
      filter_ne_key_find?_none, hnone]

/-- C3 amended: on an entry with a stored video, whenever delete_reel returns
success the metadata row is removed (the existence check is false and
get_video_url returns None afterwards), but the blob object is removed together
with it only on the path where the initial metadata read and both deletes
succeed.  If the initial metadata read fails (it catches its own exception and
yields None), delete_reel still returns success while skipping the blob delete,
leaving the blob orphaned in the bucket; and if the blob delete itself fails
after the row delete, delete_reel returns failure with the blob orphaned, as
the counterexample shows. -/
theorem c3_amended_delete (st : R2State) (k vk : String) (row : Row) (pub : Option String)
    (getOk delOk r2DelOk : Bool)
    (hrow : st.table.find? (fun r => r.reel_id == k) = some row)
    (hv : row.r2_video_key = some vk)
    (hbk : vk ∈ st.bucket) :
    ((SupabaseR2Storage.delete_reel st k getOk delOk r2DelOk).1 = true →
        (SupabaseR2Storage.exists_
            (SupabaseR2Storage.delete_reel st k getOk delOk r2DelOk).2 k true).1 = false
        ∧ (SupabaseR2Storage.get_video_url
            (SupabaseR2Storage.delete_reel st k getOk delOk r2DelOk).2 k true pub).1 = none)
    ∧ (getOk = true → delOk = true → r2DelOk = true →
        (SupabaseR2Storage.delete_reel st k getOk delOk r2DelOk).1 = true
        ∧ vk ∉ (SupabaseR2Storage.delete_reel st k getOk delOk r2DelOk).2.bucket)
    ∧ (getOk = false → delOk = true →
        (SupabaseR2Storage.delete_reel st k getOk delOk r2DelOk).1 = true
        ∧ vk ∈ (SupabaseR2Storage.delete_reel st k getOk delOk r2DelOk).2.bucket) := by
  have hdelAll : SupabaseR2Storage.delete_reel st k true true true
      = (true, { table := st.table.filter (fun r => r.reel_id != k),
                 bucket := removeStr vk st.bucket, now := st.now }) := by
    simp [SupabaseR2Storage.delete_reel, SupabaseR2Storage.get_metadata, hrow, hv]
  have hdelNoGet : ∀ r2 : Bool, SupabaseR2Storage.delete_reel st k false true r2
      = (true, { table := st.table.filter (fun r => r.reel_id != k),
                 bucket := st.bucket, now := st.now }) := by
    intro r2
    simp [SupabaseR2Storage.delete_reel, SupabaseR2Storage.get_metadata]
  refine ⟨?_, ?_, ?_⟩
  · intro hs
    cases delOk with
    | false =>
      exfalso
      have hf : (SupabaseR2Storage.delete_reel st k getOk false r2DelOk).1 = false := by
        cases getOk <;>
          simp [SupabaseR2Storage.delete_reel, SupabaseR2Storage.get_metadata, hrow, hv]
      rw [hf] at hs
      cases hs
    | true =>
      cases getOk with
      | false =>
        rw [hdelNoGet r2DelOk]
        exact exists_gvu_after_filter _ _ _ _ _
      | true =>
        cases r2DelOk with
        | true =>
          rw [hdelAll]
          exact exists_gvu_after_filter _ _ _ _ _
        | false =>
          have hdel : SupabaseR2Storage.delete_reel st k true true false
              = (false, { table := st.table.filter (fun r => r.reel_id != k),
                          bucket := st.bucket, now := st.now }) := by
            simp [SupabaseR2Storage.delete_reel, SupabaseR2Storage.get_metadata, hrow, hv]
          rw [hdel]
          exact exists_gvu_after_filter _ _ _ _ _
  · intro hg hd hr
    subst hg
    subst hd
    subst hr
    rw [hdelAll]
    exact ⟨rfl, not_mem_removeStr_self vk st.bucket⟩
  · intro hg hd
    subst hg
    subst hd
    rw [hdelNoGet r2DelOk]
    exact ⟨rfl, hbk⟩

/-- Witness for C3 amended at a concrete state with a cached video, on the
path where every remote call succeeds. -/
theorem c3_amended_delete_witness :
    ((⟨[sampleRow], ["ABC123.mp4"], some "t1"⟩ : R2State).table.find?
        (fun r => r.reel_id == "ABC123") = some sampleRow)
    ∧ sampleRow.r2_video_key = some "ABC123.mp4"
    ∧ "ABC123.mp4" ∈ (⟨[sampleRow], ["ABC123.mp4"], some "t1"⟩ : R2State).bucket
    ∧ (((SupabaseR2Storage.delete_reel ⟨[sampleRow], ["ABC123.mp4"], some "t1"⟩
            "ABC123" true true true).1 = true →
          (SupabaseR2Storage.exists_
              (SupabaseR2Storage.delete_reel ⟨[sampleRow], ["ABC123.mp4"], some "t1"⟩
                "ABC123" true true true).2 "ABC123" true).1 = false
          ∧ (SupabaseR2Storage.get_video_url
              (SupabaseR2Storage.delete_reel ⟨[sampleRow], ["ABC123.mp4"], some "t1"⟩
                "ABC123" true true true).2 "ABC123" true none).1 = none)
        ∧ (true = true → true = true → true = true →
            (SupabaseR2Storage.delete_reel ⟨[sampleRow], ["ABC123.mp4"], some "t1"⟩
                "ABC123" true true true).1 = true
            ∧ "ABC123.mp4" ∉ (SupabaseR2Storage.delete_reel
                ⟨[sampleRow], ["ABC123.mp4"], some "t1"⟩ "ABC123" true true true).2.bucket)
        ∧ (true = false → true = true →
            (SupabaseR2Storage.delete_reel ⟨[sampleRow], ["ABC123.mp4"], some "t1"⟩
                "ABC123" true true true).1 = true
            ∧ "ABC123.mp4" ∈ (SupabaseR2Storage.delete_reel
                ⟨[sampleRow], ["ABC123.mp4"], some "t1"⟩ "ABC123" true true true).2.bucket)) :=
  ⟨by decide, by decide, by decide,
    c3_amended_delete _ _ _ sampleRow none true true true (by decide) (by decide) (by decide)⟩

/-- C6 counterexample: on the hybrid backend, saving a no-video record whose
reel_id field differs from the save key and reading it back yields a record
whose reel_id is the save key, not the saved one, so the record is not equal
to the input in all fields except from_cache and cached_at. -/
theorem c6_counterexample :
    (SupabaseR2Storage.get_metadata
        (SupabaseR2Storage.save_reel_data ⟨[], [], some "t1"⟩ "ABC123"
          { sampleRecord with reel_id := "OTHER" } none [] true true).2 "ABC123" true).1
      = some { sampleRecord with from_cache := true, cached_at := some "t1" }
    ∧ ¬ eqExceptCacheFields { sampleRecord with from_cache := true, cached_at := some "t1" }
        { sampleRecord with reel_id := "OTHER" } :=
  ⟨by decide, by decide⟩

/-- C6 amended: for a record with no video, save then get_metadata on the same
backend round-trips.  On the local backend the returned record equals the
saved one verbatim.  On the hybrid backend, provided the record's reel_id
field equals the save key (the table row is keyed by the save key, which
overwrites the field), the returned record agrees with the saved one on every
field except from_cache and cached_at. -/
theorem c6_amended_roundtrip (stL : LocalState) (stR : R2State) (k : String) (r : ReelRecord)
    (localFiles : List String) (hvid : r.r2_video_key = none) :
    (LocalFileStorage.get_metadata (LocalFileStorage.save_reel_data stL k r none localFiles).2 k).1
      = Except.ok (some r)
    ∧ (r.reel_id = k → ∃ r2, (SupabaseR2Storage.get_metadata
          (SupabaseR2Storage.save_reel_data stR k r none [] true true).2 k true).1 = some r2
        ∧ eqExceptCacheFields r2 r) := by
  constructor
  · simp [LocalFileStorage.save_reel_data, LocalFileStorage.get_metadata,
      LocalFileStorage._get_reel_dir]
  · intro hid
    obtain ⟨c, hc⟩ := find?_upsertRow stR.now stR.table (SupabaseR2Storage.rowOf k r none)
    simp only [SupabaseR2Storage.rowOf] at hc
    refine ⟨{ url := r.url, reel_id := k, caption := r.caption, hashtags := r.hashtags,
              location := r.location, likes := r.likes, timestamp := r.timestamp,
              owner_username := r.owner_username, video_url := r.video_url,
              display_url := r.display_url, r2_video_key := none, from_cache := true,
              cached_at := c }, ?_, ?_⟩
    · simp only [SupabaseR2Storage.save_reel_data, SupabaseR2Storage.get_metadata,
        SupabaseR2Storage.rowOf, if_true]
      rw [hc]
    · unfold eqExceptCacheFields
      exact ⟨rfl, hid.symm, rfl, rfl, rfl, rfl, rfl, rfl, rfl, rfl, hvid.symm⟩

/-- Witness for C6 amended at a concrete record and key. -/
theorem c6_amended_roundtrip_witness :
    sampleRecord.r2_video_key = none
    ∧ ((LocalFileStorage.get_metadata
          (LocalFileStorage.save_reel_data ⟨[], fun _ => none, fun _ => false⟩ "ABC123"
            sampleRecord none []).2 "ABC123").1 = Except.ok (some sampleRecord)
        ∧ (sampleRecord.reel_id = "ABC123" →
            ∃ r2, (SupabaseR2Storage.get_metadata
                (SupabaseR2Storage.save_reel_data ⟨[], [], some "t1"⟩ "ABC123"
                  sampleRecord none [] true true).2 "ABC123" true).1 = some r2
              ∧ eqExceptCacheFields r2 sampleRecord)) :=
  ⟨rfl, c6_amended_roundtrip _ _ _ _ _ rfl⟩

/-- C9 counterexample: on the local backend the existence check is not free of
side effects: exists on a key with no entry creates the per-key cache
directory (mkdir in _get_reel_dir), changing the persistent filesystem state. -/
theorem c9_counterexample :
    ((LocalFileStorage.exists_ ⟨[], fun _ => none, fun _ => false⟩ "NEWKEY").2).dirs = ["NEWKEY"]
    ∧ (LocalFileStorage.exists_ ⟨[], fun _ => none, fun _ => false⟩ "NEWKEY").2
        ≠ (⟨[], fun _ => none, fun _ => false⟩ : LocalState) := by
  refine ⟨rfl, fun h => ?_⟩
  have hd := congrArg LocalState.dirs h
  exact absurd hd (by decide)

/-- C9 amended: the hybrid backend's exists leaves the state unchanged and its
result depends only on the reel_id column (no full record read); the local
backend's exists reads only the presence of the metadata file and changes
nothing except creating the per-key directory when absent. -/
theorem c9_amended_exists_effects (stR stR' : R2State) (stL : LocalState) (k : String) (q : Bool)
    (hmap : stR.table.map Row.reel_id = stR'.table.map Row.reel_id) :
    (SupabaseR2Storage.exists_ stR k q).2 = stR
    ∧ (LocalFileStorage.exists_ stL k).2.metaFiles = stL.metaFiles
    ∧ (LocalFileStorage.exists_ stL k).2.videoFiles = stL.videoFiles
    ∧ (LocalFileStorage.exists_ stL k).2.dirs = insertStr k stL.dirs
    ∧ (SupabaseR2Storage.exists_ stR k q).1 = (SupabaseR2Storage.exists_ stR' k q).1 := by
  refine ⟨?_, rfl, rfl, rfl, ?_⟩
  · cases q <;> rfl
  · cases q with
    | false => rfl
    | true =>
      have key : ∀ t : List Row, (t.filter (fun r => r.reel_id == k)).length
          = (t.map Row.reel_id).countP (fun s => s == k) := by
        intro t
        rw [List.countP_map, List.countP_eq_length_filter]
        rfl
      show decide (0 < (stR.table.filter (fun r => r.reel_id == k)).length)
        = decide (0 < (stR'.table.filter (fun r => r.reel_id == k)).length)
      rw [key, key, hmap]

/-- Witness for C9 amended: two hybrid states with the same reel_id column but
different rows, buckets and timestamps, and a concrete local state. -/
theorem c9_amended_exists_effects_witness :
    ((⟨[sampleRow], ["ABC123.mp4"], some "t1"⟩ : R2State).table.map Row.reel_id
        = (⟨[{ sampleRow with likes := 99, created_at := none }], [], none⟩ : R2State).table.map Row.reel_id)
    ∧ ((SupabaseR2Storage.exists_ ⟨[sampleRow], ["ABC123.mp4"], some "t1"⟩ "ABC123" true).2
          = (⟨[sampleRow], ["ABC123.mp4"], some "t1"⟩ : R2State)
        ∧ (LocalFileStorage.exists_ ⟨[], fun _ => none, fun _ => false⟩ "ABC123").2.metaFiles
            = (⟨[], fun _ => none, fun _ => false⟩ : LocalState).metaFiles
        ∧ (LocalFileStorage.exists_ ⟨[], fun _ => none, fun _ => false⟩ "ABC123").2.videoFiles
            = (⟨[], fun _ => none, fun _ => false⟩ : LocalState).videoFiles
        ∧ (LocalFileStorage.exists_ ⟨[], fun _ => none, fun _ => false⟩ "ABC123").2.dirs
            = insertStr "ABC123" (⟨[], fun _ => none, fun _ => false⟩ : LocalState).dirs
        ∧ (SupabaseR2Storage.exists_ ⟨[sampleRow], ["ABC123.mp4"], some "t1"⟩ "ABC123" true).1
            = (SupabaseR2Storage.exists_
                ⟨[{ sampleRow with likes := 99, created_at := none }], [], none⟩ "ABC123" true).1) :=
  ⟨by decide, c9_amended_exists_effects _ _ _ _ _ (by decide)⟩
